import Mathlib

/-!
Verification development for the fincas-incident-agent repository.

The Python services are shallowly embedded as pure Lean functions:
the database session becomes explicit lists of records, timestamps become
natural numbers counting hours, and outbound network sends become a
Boolean parameter saying whether the send succeeded (the code only
branches on success vs raised exception).  Each definition mirrors one
function of the source tree; the theorems at the end settle the frozen
claims about those functions.
-/

namespace Fincas

/-- `app.models.ticket.TicketStatus` (src/app/models/ticket.py lines 18-29).
The enum has exactly these ten members; in particular it has no member
named RESOLVED. -/
inductive TicketStatus where
  | NEW
  | NEEDS_INFO
  | VALIDATING
  | DISPATCHED
  | SCHEDULED
  | IN_PROGRESS
  | NEEDS_CONFIRMATION
  | WAITING_INVOICE
  | CLOSED
  | ESCALATED
deriving DecidableEq, Repr

/-- `TicketStatus.value` of each member (the string value backing the enum). -/
def TicketStatus.value : TicketStatus → String
  | .NEW => "NEW"
  | .NEEDS_INFO => "NEEDS_INFO"
  | .VALIDATING => "VALIDATING"
  | .DISPATCHED => "DISPATCHED"
  | .SCHEDULED => "SCHEDULED"
  | .IN_PROGRESS => "IN_PROGRESS"
  | .NEEDS_CONFIRMATION => "NEEDS_CONFIRMATION"
  | .WAITING_INVOICE => "WAITING_INVOICE"
  | .CLOSED => "CLOSED"
  | .ESCALATED => "ESCALATED"

/-- Python attribute access `getattr(TicketStatus, name)`: `some` the member
for each of the ten defined member names, `none` (an `AttributeError` at
runtime) for any other name.  Derived from the class body of
`TicketStatus` in src/app/models/ticket.py. -/
def TicketStatus.attr : String → Option TicketStatus
  | "NEW" => some .NEW
  | "NEEDS_INFO" => some .NEEDS_INFO
  | "VALIDATING" => some .VALIDATING
  | "DISPATCHED" => some .DISPATCHED
  | "SCHEDULED" => some .SCHEDULED
  | "IN_PROGRESS" => some .IN_PROGRESS
  | "NEEDS_CONFIRMATION" => some .NEEDS_CONFIRMATION
  | "WAITING_INVOICE" => some .WAITING_INVOICE
  | "CLOSED" => some .CLOSED
  | "ESCALATED" => some .ESCALATED
  | _ => none

/-- `app.models.ticket.Category`. -/
inductive Category where
  | WATER
  | ELEVATOR
  | ELECTRICITY
  | GARAGE_DOOR
  | CLEANING
  | SECURITY
  | OTHER
deriving DecidableEq, Repr

/-- `app.models.ticket.Priority`. -/
inductive Priority where
  | URGENT
  | HIGH
  | MEDIUM
  | LOW
deriving DecidableEq, Repr

/-- `app.models.ticket.Channel`. -/
inductive Channel where
  | EMAIL
  | WHATSAPP
  | SMS
  | WEB
  | PHONE
deriving DecidableEq, Repr

/-- `app.models.email.EmailDirection`. -/
inductive EmailDirection where
  | INBOUND
  | OUTBOUND
deriving DecidableEq, Repr

/-- The `Ticket` ORM row (src/app/models/ticket.py).  Timestamps are hours
on a global clock; nullable columns are `Option`. -/
structure Ticket where
  id : Nat
  ticket_code : String
  subject : String
  description : Option String
  status : TicketStatus
  category : Category
  priority : Priority
  reporter_email : String
  reporter_name : Option String
  reporter_phone : Option String
  assigned_provider_id : Option Nat
  community_name : Option String
  channel : Channel
  address : Option String
  location_detail : Option String
  created_at : Nat
  updated_at : Nat
  closed_at : Option Nat
deriving DecidableEq, Repr

/-- The `Email` ORM row (src/app/models/email.py), restricted to the columns
the resolvers read.  `message_id` carries a unique constraint in the schema. -/
structure EmailRec where
  ticket_id : Nat
  message_id : String
  direction : EmailDirection
  received_at : Nat
deriving DecidableEq, Repr

/-- The `Event` ORM row (src/app/models/event.py), the audit-trail record. -/
structure EventRec where
  ticket_id : Nat
  event_type : String
  description : String
  created_by : String
deriving DecidableEq, Repr

/-- The `Provider` ORM row (src/app/models/provider.py), restricted to the
columns the default-provider lookup and notification read. -/
structure Provider where
  id : Nat
  name : String
  email : String
  category : Category
  is_default : Bool
  is_active : Bool
deriving DecidableEq, Repr

/-- The `Reporter` ORM row (src/app/models/reporter.py), restricted to the
fields the enrichment operations touch. -/
structure Reporter where
  name : String
  email : String
  phone : Option String
  community_name : Option String
  address : Option String
  floor_door : Option String
deriving DecidableEq, Repr

/-! ## Python string and truthiness helpers -/

/-- Truthiness of an optional string in Python: `None` and the empty string
are falsy, everything else truthy (`if not x: ...`). -/
def pyTruthy : Option String → Bool
  | none => false
  | some s => !(s == "")

/-- Python `a or b` on two optional strings: `a` when truthy, else `b`. -/
def pyOr (a b : Option String) : Option String :=
  if pyTruthy a then a else b

/-- Lower-casing as Python `str.lower` acts on the characters appearing in
this code base: ASCII letters plus the Spanish accented vowels and enye. -/
def pyCharLower (c : Char) : Char :=
  if c = 'Á' then 'á'
  else if c = 'É' then 'é'
  else if c = 'Í' then 'í'
  else if c = 'Ó' then 'ó'
  else if c = 'Ú' then 'ú'
  else if c = 'Ñ' then 'ñ'
  else if c = 'Ü' then 'ü'
  else c.toLower

/-- `s.lower()` over the alphabet handled by `pyCharLower`. -/
def pyLower (s : String) : String :=
  String.mk (s.toList.map pyCharLower)

/-- Does `pat` occur at the very start of `l`? -/
def startsWithList : List Char → List Char → Bool
  | [], _ => true
  | _ :: _, [] => false
  | a :: as, b :: bs => a == b && startsWithList as bs

/-- Python `pat in hay` on strings, as lists of characters. -/
def hasSubList (hay pat : List Char) : Bool :=
  startsWithList pat hay ||
    match hay with
    | [] => false
    | _ :: tl => hasSubList tl pat

/-- Python substring test `pat in hay`. -/
def strHas (hay pat : String) : Bool :=
  hasSubList hay.toList pat.toList

/-- Python `s.startswith(pat)`. -/
def strStarts (s pat : String) : Bool :=
  startsWithList pat.toList s.toList

/-- Python `s.strip()`: drop leading and trailing whitespace. -/
def pyStrip (s : String) : String :=
  String.mk (((s.toList.dropWhile Char.isWhitespace).reverse.dropWhile
    Char.isWhitespace).reverse)

/-- `email.split('@')[0]`: the local part of an address (the whole string
when it has no `@`). -/
def emailLocalPart (e : String) : String :=
  String.mk (e.toList.takeWhile (fun c => !(c == '@')))

/-! ## TicketService (src/app/services/ticket_service.py) -/

/-- `string.ascii_uppercase + string.digits`: the alphabet the random part
of a ticket code is drawn from. -/
def codeAlphabet : List Char :=
  "ABCDEFGHIJKLMNOPQRSTUVWXYZ0123456789".toList

/-- A character allowed by the `[A-Z0-9]` class of the code pattern. -/
def isCodeChar (c : Char) : Bool :=
  ('A' ≤ c && c ≤ 'Z') || ('0' ≤ c && c ≤ '9')

/-- `TicketService._generate_ticket_code`: prepend `INC-` to the random
six-character part. -/
def generate_ticket_code (randomPart : String) : String :=
  "INC-" ++ randomPart

/-- The anchored regex `^INC-[A-Z0-9]{6}$` from the spec, on a character
list: the literal marker followed by exactly six characters of the class. -/
def validCodeChars : List Char → Bool
  | 'I' :: 'N' :: 'C' :: '-' :: rest => rest.length == 6 && rest.all isCodeChar
  | _ => false

/-- The anchored regex `^INC-[A-Z0-9]{6}$` from the spec, as a decidable
check on a whole string. -/
def is_valid_ticket_code (s : String) : Bool :=
  validCodeChars s.toList

/-- The code-generation loop of `TicketService.create_ticket`: draw
candidate random parts from `stream`, and return the first generated code
not already present in `store` (the set of `ticket_code` values in the
database).  The Python loop is `while True`, so its termination is exactly
the hypothesis that some candidate is fresh. -/
def create_ticket_code (stream : Nat → String) (store : List String)
    (h : ∃ n, store.contains (generate_ticket_code (stream n)) = false) : String :=
  generate_ticket_code (stream (Nat.find h))

/-- `TicketService.create_ticket` after the code loop: the new `Ticket` row
(status `NEW`, channel and location fields at their column defaults) plus
the single `TICKET_CREATED` audit event. -/
structure TicketCreateData where
  subject : String
  description : Option String
  category : Category
  priority : Priority
  reporter_email : String
  reporter_name : Option String
  community_name : Option String
deriving DecidableEq, Repr

def create_ticket (data : TicketCreateData) (ticket_code : String) (tid : Nat)
    (now : Nat) : Ticket × List EventRec :=
  let t : Ticket :=
    { id := tid
      ticket_code := ticket_code
      subject := data.subject
      description := data.description
      status := .NEW
      category := data.category
      priority := data.priority
      reporter_email := data.reporter_email
      reporter_name := data.reporter_name
      reporter_phone := none
      assigned_provider_id := none
      community_name := data.community_name
      channel := .EMAIL
      address := none
      location_detail := none
      created_at := now
      updated_at := now
      closed_at := none }
  (t, [{ ticket_id := tid
         event_type := "TICKET_CREATED"
         description := "Ticket " ++ ticket_code ++ " created"
         created_by := "SYSTEM" }])

/-- `TicketService.change_status` on a ticket already fetched by id: set the
new status, maintain `closed_at` (set on closing if absent, cleared on any
non-CLOSED status), and append the single `STATUS_CHANGED` audit event.
The closure notification that follows is fire-and-forget (its failures are
swallowed) and appends no event. -/
def change_status (t : Ticket) (new_status : TicketStatus)
    (comment : Option String) (now : Nat) : Ticket × List EventRec :=
  let closed_at :=
    if new_status = .CLOSED then
      (if t.closed_at = none then some now else t.closed_at)
    else none
  let t2 := { t with status := new_status, closed_at := closed_at, updated_at := now }
  (t2,
   [{ ticket_id := t.id
      event_type := "STATUS_CHANGED"
      description :=
        comment.getD ("Status changed from " ++ t.status.value ++ " to " ++ new_status.value)
      created_by := "SYSTEM" }])

/-- The provider rows matching the default-provider query
(`Provider.category == category AND is_default AND is_active`), used by both
`TicketService.get_default_provider_for_category` and
`EmailService._notify_default_provider`.  `scalar_one_or_none` yields the
row when exactly one matches, `None` on zero, and raises on several. -/
def default_providers_for (providers : List Provider) (cat : Category) : List Provider :=
  providers.filter (fun p => p.category == cat && p.is_default && p.is_active)

/-! ## EmailService._notify_default_provider (src/app/services/email_service.py
lines 670-797).  The whole body runs in a try/except: on any raised error a
`PROVIDER_NOTIFICATION_FAILED` event is appended and nothing else changes.
`send_ok` is whether the outbound `send_email` call returned rather than
raised; the provider assignment is written before the send, the
`PROVIDER_NOTIFIED` event and the `DISPATCHED` status after it, and the
failure handler commits whatever was already mutated in the session. -/

/-- The `PROVIDER_NOTIFIED` audit event appended on a successful default
provider notification. -/
def provider_notified_event (t : Ticket) (p : Provider) : EventRec :=
  { ticket_id := t.id
    event_type := "PROVIDER_NOTIFIED"
    description := "Proveedor por defecto notificado: " ++ p.name
    created_by := "AI Agent" }

/-- The `PROVIDER_NOTIFICATION_FAILED` audit event appended by the except
handler of `_notify_default_provider`. -/
def provider_notification_failed_event (t : Ticket) : EventRec :=
  { ticket_id := t.id
    event_type := "PROVIDER_NOTIFICATION_FAILED"
    description := "Error al notificar proveedor"
    created_by := "AI Agent" }

def notify_default_provider (providers : List Provider) (t : Ticket)
    (send_ok : Bool) : Ticket × List EventRec :=
  match default_providers_for providers t.category with
  | [] => (t, [])
  | [p] =>
    if send_ok then
      ({ t with assigned_provider_id := some p.id, status := .DISPATCHED },
       [provider_notified_event t p])
    else
      ({ t with assigned_provider_id := some p.id },
       [provider_notification_failed_event t])
  | _ =>
    (t, [provider_notification_failed_event t])

/-! ## Case resolvers -/

/-- One attempt of the regex `INC-[A-Z0-9]{6}` at the head of the list:
the literal `INC-` followed by six characters of the class. -/
def matchCodeAt : List Char → Option String
  | 'I' :: 'N' :: 'C' :: '-' :: c1 :: c2 :: c3 :: c4 :: c5 :: c6 :: _ =>
    if ([c1, c2, c3, c4, c5, c6].all isCodeChar) then
      some (String.mk ['I', 'N', 'C', '-', c1, c2, c3, c4, c5, c6])
    else none
  | _ => none

/-- `re.search` for `INC-[A-Z0-9]{6}` (the optional surrounding brackets of
the email-service variant do not affect the captured group): first match
scanning left to right. -/
def searchTicketCode : List Char → Option String
  | [] => none
  | l@(_ :: tl) =>
    match matchCodeAt l with
    | some c => some c
    | none => searchTicketCode tl

/-- `30 days` of the staleness window, in hours. -/
def staleWindowHours : Nat := 30 * 24

/-- One iteration of the References loop of
`EmailService._find_existing_ticket`: `none` stands for `continue` (empty
token, one of our own `@fincas-agent>` ids, no stored email, or a CLOSED or
stale owning ticket), `some` for the `return` of an attachable ticket. -/
def reference_candidate (now : Nat) (tickets : List Ticket) (emails : List EmailRec)
    (ref : String) : Option Ticket :=
  if ref == "" then none
  else if strHas ref "@fincas-agent>" then none
  else
    match emails.find? (fun e => e.message_id == ref) with
    | none => none
    | some refEmail =>
      match tickets.find? (fun t => t.id == refEmail.ticket_id) with
      | none => none
      | some t =>
        if t.status == .CLOSED then none
        else if staleWindowHours < now - t.created_at then none
        else some t

/-- `EmailService._find_existing_ticket`, third priority: walk the
whitespace-split References header and return the first candidate ticket
(closed or stale referenced tickets are skipped, not final). -/
def find_by_references (now : Nat) (tickets : List Ticket) (emails : List EmailRec)
    (refs : List String) : Option Ticket :=
  refs.findSome? (reference_candidate now tickets emails)

/-- `EmailService._find_existing_ticket`, second priority (reached when the
subject holds no code of a stored ticket): the In-Reply-To header.  A
closed or stale ticket found here is final: the function returns `None`
and a new ticket is created. -/
def find_by_in_reply_to (now : Nat) (tickets : List Ticket) (emails : List EmailRec)
    (in_reply_to : Option String) (references : List String) : Option Ticket :=
  match in_reply_to with
  | none => find_by_references now tickets emails references
  | some irt =>
    match emails.find? (fun e => e.message_id == irt) with
    | none => find_by_references now tickets emails references
    | some orig =>
      match tickets.find? (fun t => t.id == orig.ticket_id) with
      | none => find_by_references now tickets emails references
      | some t =>
        if t.status == .CLOSED then none
        else if staleWindowHours < now - t.created_at then none
        else some t

/-- `EmailService._find_existing_ticket` (src/app/services/email_service.py
lines 910-1008): subject code first (a CLOSED match forces a new ticket),
then In-Reply-To, then References.  The References header is passed
already whitespace-split, as `references.split()` produces it. -/
def find_existing_ticket (now : Nat) (tickets : List Ticket) (emails : List EmailRec)
    (subject : String) (in_reply_to : Option String) (references : List String) :
    Option Ticket :=
  match searchTicketCode subject.toList with
  | some code =>
    match tickets.find? (fun t => t.ticket_code == code) with
    | some t => if t.status == .CLOSED then none else some t
    | none => find_by_in_reply_to now tickets emails in_reply_to references
  | none => find_by_in_reply_to now tickets emails in_reply_to references

/-- Insertion into a list kept sorted by `created_at` descending; stable for
equal keys, mirroring `ORDER BY created_at DESC`. -/
def insertByCreatedDesc (t : Ticket) : List Ticket → List Ticket
  | [] => [t]
  | h :: tl =>
    if h.created_at < t.created_at then t :: h :: tl
    else h :: insertByCreatedDesc t tl

/-- Sort by `created_at` descending. -/
def sortByCreatedDesc : List Ticket → List Ticket
  | [] => []
  | h :: tl => insertByCreatedDesc h (sortByCreatedDesc tl)

/-- `re.sub(r'^(Re:|Fwd:|RV:|RE:|FW:)\s*', '', subject, flags=re.IGNORECASE).strip()`
from `_process_incident_email`: drop one case-insensitive reply or forward
marker and the whitespace after it, then strip. -/
def strip_reply_marker (s : String) : String :=
  let ls := pyLower s
  let dropN (n : Nat) : String :=
    pyStrip (String.mk ((s.toList.drop n).dropWhile Char.isWhitespace))
  if strStarts ls "re:" then dropN 3
  else if strStarts ls "fwd:" then dropN 4
  else if strStarts ls "rv:" then dropN 3
  else if strStarts ls "fw:" then dropN 3
  else pyStrip s

/-- Method 3 of `resend_inbound._process_incident_email` (lines 315-354):
tickets of the same reporter created within 48 hours and not CLOSED, most
recent first, at most five; the first whose cleaned subject matches the
cleaned inbound subject exactly (case-insensitive) or, when both sides are
longer than ten characters, contains or is contained in it. -/
def resend_same_sender_match (now : Nat) (tickets : List Ticket)
    (sender_email : String) (subject : String) : Option Ticket :=
  let cutoff := now - 48
  let clean := pyLower (strip_reply_marker subject)
  let recents :=
    (sortByCreatedDesc (tickets.filter (fun t =>
      t.reporter_email == sender_email &&
      cutoff ≤ t.created_at &&
      !(t.status == .CLOSED)))).take 5
  recents.find? (fun t =>
    let tclean := pyLower (strip_reply_marker t.subject)
    clean == tclean ||
      (10 < clean.length && 10 < tclean.length &&
        (strHas tclean clean || strHas clean tclean)))

/-- The existing-ticket resolution of `resend_inbound._process_incident_email`
(src/app/routers/resend_inbound.py lines 285-354): In-Reply-To lookup, then
ticket code in the subject, then the same-sender/similar-subject heuristic.
The first two methods apply no CLOSED or staleness check. -/
def resend_find_existing_ticket (now : Nat) (tickets : List Ticket)
    (emails : List EmailRec) (sender_email : String) (subject : String)
    (in_reply_to : Option String) : Option Ticket :=
  let method1 : Option Ticket :=
    match in_reply_to with
    | none => none
    | some irt =>
      match emails.find? (fun e => e.message_id == irt) with
      | none => none
      | some orig => tickets.find? (fun t => t.id == orig.ticket_id)
  match method1 with
  | some t => some t
  | none =>
    match searchTicketCode subject.toList with
    | some code =>
      match tickets.find? (fun t => t.ticket_code == code) with
      | some t => some t
      | none => resend_same_sender_match now tickets sender_email subject
    | none => resend_same_sender_match now tickets sender_email subject

/-- The routing decision taken by `_process_incident_email` after resolution:
attach the mail to the resolved ticket or create a new one. -/
inductive ResendDecision where
  | attach (t : Ticket)
  | createNew
deriving DecidableEq, Repr

def resend_process_incident_email (now : Nat) (tickets : List Ticket)
    (emails : List EmailRec) (sender_email : String) (subject : String)
    (in_reply_to : Option String) : ResendDecision :=
  match resend_find_existing_ticket now tickets emails sender_email subject in_reply_to with
  | some t => .attach t
  | none => .createNew

/-- The dedup guard of `process_emails` (src/app/services/email_service.py
lines 1229-1235): an inbound message whose `message_id` is already stored
is skipped.  The Resend webhook (`resend_inbound_webhook`) performs no such
lookup before processing. -/
def process_emails_already_processed (emails : List EmailRec) (message_id : String) : Bool :=
  (emails.find? (fun e => e.message_id == message_id)).isSome

/-! ## Fact extraction (src/app/services/ai_agent_service.py) -/

/-- The keys of the `extracted_info` dictionary that the services read
(`extracted.get(...)` calls); an absent key reads as `None`. -/
structure ExtractedInfo where
  reporter_name : Option String := none
  reporter_contact : Option String := none
  problem_description : Option String := none
  address : Option String := none
  location_detail : Option String := none
  reporter_phone : Option String := none
  community_name : Option String := none
deriving DecidableEq, Repr

/-- The `IncidentAnalysis` dataclass. -/
structure IncidentAnalysis where
  has_complete_info : Bool
  category : Option Category
  priority : Option Priority
  missing_fields : List String
  extracted_info : ExtractedInfo
  follow_up_questions : List String
  summary : String
deriving DecidableEq, Repr

/-- `AIAgentService._fallback_analysis` (lines 263-304): the deterministic
path taken when the AI client is absent or its call raised.  `classified`
is the pair returned by `ClassifierService.classify_email(subject, body)`,
injected here as that call's result.  The missing-field check looks only at
the lower-cased body. -/
def fallback_analysis (classified : Category × Priority) (subject body : String)
    (sender_email : String) (sender_name : Option String) : IncidentAnalysis :=
  let lowered := pyLower body
  let extracted : ExtractedInfo :=
    { reporter_name := sender_name
      reporter_contact := some sender_email
      problem_description :=
        if body == "" then none else some (String.mk (body.toList.take 500)) }
  let missing : List String :=
    (if pyTruthy sender_name then [] else ["Nombre de quien reporta"]) ++
    (if !(strHas lowered "dirección") && !(strHas lowered "calle") then
       ["Dirección del edificio"] else []) ++
    (if !(strHas lowered "portal") && !(strHas lowered "piso") && !(strHas lowered "planta") then
       ["Ubicación específica (portal, piso, planta)"] else [])
  { has_complete_info := missing.isEmpty
    category := some classified.1
    priority := some classified.2
    missing_fields := missing
    extracted_info := extracted
    follow_up_questions := missing.map (fun m => "¿Podría indicarnos " ++ pyLower m ++ "?")
    summary := subject }

/-! ## EmailService info-response handling and reporter enrichment -/

/-- `EmailService._send_info_request` (lines 604-668): the whole body is a
try/except; success appends one `INFO_REQUESTED` event, any raised error
one `EMAIL_FAILED` event.  `send_ok` is whether the generation and send
completed without raising. -/
def send_info_request_events (t : Ticket) (send_ok : Bool) : List EventRec :=
  if send_ok then
    [{ ticket_id := t.id
       event_type := "INFO_REQUESTED"
       description := "Solicitud automática de información enviada"
       created_by := "AI Agent" }]
  else
    [{ ticket_id := t.id
       event_type := "EMAIL_FAILED"
       description := "Error al enviar solicitud de información"
       created_by := "AI Agent" }]

/-- `EmailService._process_info_response` (lines 799-908), after the
follow-up analysis returned `updated`: write extracted fields into empty
ticket columns, adopt the analysis category/priority, and either move the
ticket from NEEDS_INFO to NEW and run the provider notification (complete
info) or send another info request (incomplete).  No event records the
status change itself; the only events are those of the notification or of
the request email. -/
def apply_info_response_updates (t : Ticket) (updated : IncidentAnalysis) : Ticket :=
  let e := updated.extracted_info
  let t := if pyTruthy e.address && !(pyTruthy t.address) then
    { t with address := e.address } else t
  let t := if pyTruthy e.location_detail && !(pyTruthy t.location_detail) then
    { t with location_detail := e.location_detail } else t
  let t := if pyTruthy e.reporter_name && !(pyTruthy t.reporter_name) then
    { t with reporter_name := e.reporter_name } else t
  let t := if pyTruthy e.reporter_phone && !(pyTruthy t.reporter_phone) then
    { t with reporter_phone := e.reporter_phone } else t
  let t := match updated.category with
    | some c => { t with category := c }
    | none => t
  match updated.priority with
  | some p => { t with priority := p }
  | none => t

def process_info_response_email (t : Ticket) (updated : IncidentAnalysis)
    (providers : List Provider) (send_ok : Bool) : Ticket × List EventRec :=
  let t := apply_info_response_updates t updated
  if updated.has_complete_info then
    notify_default_provider providers { t with status := .NEW } send_ok
  else
    (t, send_info_request_events t send_ok)

/-- `EmailService._update_reporter_from_ticket` (lines 516-565): enrich the
reporter from the ticket and the extracted facts.  Name is rewritten when
absent or still equal to the defaulted email local part; phone, community,
address and floor/door are written only into empty fields. -/
def update_reporter_from_ticket (reporter : Option Reporter) (t : Ticket)
    (extracted : ExtractedInfo) : Option Reporter :=
  match reporter with
  | none => none
  | some r =>
    let name :=
      if pyTruthy t.reporter_name &&
          (r.name == "" || r.name == emailLocalPart r.email) then
        t.reporter_name.getD r.name
      else r.name
    let phoneNew := pyOr extracted.reporter_phone t.reporter_phone
    let phone :=
      if pyTruthy phoneNew && !(pyTruthy r.phone) then phoneNew else r.phone
    let community_name :=
      if pyTruthy t.community_name && !(pyTruthy r.community_name) then
        t.community_name
      else r.community_name
    let addressNew := pyOr extracted.address t.address
    let address :=
      if pyTruthy addressNew && !(pyTruthy r.address) then addressNew else r.address
    let locationNew := pyOr extracted.location_detail t.location_detail
    let floor_door :=
      if pyTruthy locationNew && !(pyTruthy r.floor_door) then locationNew
      else r.floor_door
    some { r with
            name := name
            phone := phone
            community_name := community_name
            address := address
            floor_door := floor_door }

/-! ## Resend webhook attach path (src/app/routers/resend_inbound.py 370-507) -/

/-- `_add_email_to_ticket`: append the inbound body to the ticket
description, fill empty ticket fields from the fresh analysis, and update
the status: a NEEDS_INFO ticket with now-complete info moves to NEW with an
`info_provided` event followed by the provider notification; otherwise an
`email_reply` event is appended.  The reporter-name column is rewritten
when absent, when it contains an `@`, or when it equals the email local
part. -/
def apply_resend_reply_updates (t : Ticket) (analysis : IncidentAnalysis)
    (text_body : String) : Ticket :=
  let sep := "\n\n--- Respuesta del usuario ---\n"
  let newDescription :=
    if pyTruthy t.description then some ((t.description.getD "") ++ sep ++ text_body)
    else some text_body
  let t := { t with description := newDescription }
  let e := analysis.extracted_info
  let t := if pyTruthy e.reporter_name &&
      (!(pyTruthy t.reporter_name) ||
        strHas (t.reporter_name.getD "") "@" ||
        t.reporter_name.getD "" == emailLocalPart t.reporter_email) then
    { t with reporter_name := e.reporter_name } else t
  let t := if pyTruthy e.reporter_phone && !(pyTruthy t.reporter_phone) then
    { t with reporter_phone := e.reporter_phone } else t
  let t := if pyTruthy e.address && !(pyTruthy t.address) then
    { t with address := e.address } else t
  let t := if pyTruthy e.location_detail && !(pyTruthy t.location_detail) then
    { t with location_detail := e.location_detail } else t
  if pyTruthy e.community_name && !(pyTruthy t.community_name) then
    { t with community_name := e.community_name } else t

def resend_add_email_to_ticket (t : Ticket) (analysis : IncidentAnalysis)
    (providers : List Provider) (send_ok : Bool) (text_body : String) :
    Ticket × List EventRec :=
  let t := apply_resend_reply_updates t analysis text_body
  if t.status == .NEEDS_INFO then
    if analysis.has_complete_info then
      let infoEvent : EventRec :=
        { ticket_id := t.id
          event_type := "info_provided"
          description := "Información completa recibida por email. Ticket listo para procesar."
          created_by := "SYSTEM" }
      let result := notify_default_provider providers { t with status := .NEW } send_ok
      (result.1, infoEvent :: result.2)
    else
      (t, [{ ticket_id := t.id
             event_type := "email_reply"
             description := "Respuesta recibida. Aún falta información"
             created_by := "SYSTEM" }])
  else
    (t, [{ ticket_id := t.id
           event_type := "email_reply"
           description := "Respuesta recibida del reportante"
           created_by := "SYSTEM" }])

/-! ## WhatsAppService (src/app/services/whatsapp_service.py) -/

/-- `NEW_INCIDENT_TIME_THRESHOLD = timedelta(hours=24)` (lines 41-42), in
hours.  The constant is declared with the comment that messages after this
threshold count as a new incident; no code in the module reads it. -/
def NEW_INCIDENT_TIME_THRESHOLD : Nat := 24

/-- Phone normalization and the variant list tried by the ticket and
reporter lookups: strip, remove spaces and dashes, then the cleaned number,
the number without `+`, and the number with a `+` prepended. -/
def phone_variants (phone : String) : List String :=
  let cleaned := String.mk ((pyStrip phone).toList.filter (fun c => !(c == ' ') && !(c == '-')))
  let noPlus := String.mk (cleaned.toList.filter (fun c => !(c == '+')))
  [cleaned, noPlus, if strStarts cleaned "+" then cleaned else "+" ++ cleaned]

/-- The per-variant query of `_find_ticket_needing_info`: tickets of this
phone in status NEEDS_INFO, most recent `created_at` first, limit one.  No
condition on `updated_at` or any time window appears in the query. -/
def needs_info_query (tickets : List Ticket) (variant : String) : Option Ticket :=
  (sortByCreatedDesc (tickets.filter (fun t =>
    t.reporter_phone == some variant && t.status == .NEEDS_INFO))).head?

/-- `WhatsAppService._find_ticket_needing_info` (lines 252-276): try each
phone variant in order and return the first hit. -/
def find_ticket_needing_info (tickets : List Ticket) (phone : String) : Option Ticket :=
  let rec loop : List String → Option Ticket
    | [] => none
    | v :: rest =>
      match needs_info_query tickets v with
      | some t => some t
      | none => loop rest
  loop (phone_variants phone)

/-- The room-name list used inside `_process_info_response` (lines 958-959)
to reject extraction noise from the floor/door field. -/
def invalid_floor_door_rooms : List String :=
  ["baño", "bano", "cocina", "salon", "salón", "dormitorio",
   "habitacion", "habitación", "terraza", "balcon", "balcón", "pasillo"]

/-- Does the lower-cased value contain one of the room names? -/
def is_room_name_value (v : String) : Bool :=
  invalid_floor_door_rooms.any (fun room => strHas (pyLower v) room)

/-- The reporter-enrichment block of `WhatsAppService._process_info_response`
(lines 952-972): address and floor/door are written only into empty fields
(floor/door additionally only when not a room name), the name only over a
`WhatsApp`-prefixed placeholder; finally a previously stored floor/door
that is a room name is cleared to `None`. -/
def whatsapp_enrich_reporter (r : Reporter) (extracted : ExtractedInfo) : Reporter :=
  let address :=
    if pyTruthy extracted.address && !(pyTruthy r.address) then extracted.address
    else r.address
  let floorFilled :=
    if pyTruthy extracted.location_detail && !(pyTruthy r.floor_door) then
      (if is_room_name_value (extracted.location_detail.getD "") then r.floor_door
       else extracted.location_detail)
    else r.floor_door
  let name :=
    if pyTruthy extracted.reporter_name && strStarts r.name "WhatsApp" then
      extracted.reporter_name.getD r.name
    else r.name
  let floor_door :=
    if pyTruthy floorFilled && is_room_name_value (floorFilled.getD "") then none
    else floorFilled
  { r with
      address := address
      floor_door := floor_door
      name := name }

/-- The status part of `WhatsAppService._process_info_response` (lines
983-987): when the re-analysis reports complete info the ticket moves from
NEEDS_INFO to NEW and the provider notification runs; in either branch a
single `whatsapp_response` message-received event was already appended
before the branch. -/
def process_info_response_whatsapp_status (t : Ticket) (analysis : IncidentAnalysis)
    (providers : List Provider) (send_ok : Bool) : Ticket × List EventRec :=
  let responseEvent : EventRec :=
    { ticket_id := t.id
      event_type := "whatsapp_response"
      description := "Respuesta recibida vía WhatsApp"
      created_by := "SYSTEM" }
  if analysis.has_complete_info then
    let result := notify_default_provider providers { t with status := .NEW } send_ok
    (result.1, responseEvent :: result.2)
  else
    (t, [responseEvent])

/-! ## WhatsApp status formatting (claim C10).

In Python the dictionary literals inside `_format_ticket_status` and
`_get_status_text` are evaluated on every call, and each key is an
attribute access on the `TicketStatus` enum class; an access to an
undefined member raises `AttributeError` before any entry is built.  The
evaluation is modelled with `TicketStatus.attr` over the literal member
names appearing in the source. -/

/-- Resolve one enum attribute access, raising (as `Except.error`) on an
undefined member. -/
def evalStatusAttr (name : String) : Except String TicketStatus :=
  match TicketStatus.attr name with
  | some s => Except.ok s
  | none => Except.error ("AttributeError: " ++ name)

/-- Evaluate the key attribute accesses of a status-text dictionary literal
in order, keeping the paired texts. -/
def evalStatusDict : List (String × String) → Except String (List (TicketStatus × String))
  | [] => Except.ok []
  | (name, text) :: rest => do
    let s ← evalStatusAttr name
    let tail ← evalStatusDict rest
    pure ((s, text) :: tail)

/-- The member names and texts of the dictionary literal in
`_format_ticket_status` (lines 418-425), in source order; the fifth entry
references `TicketStatus.RESOLVED`. -/
def format_ticket_status_entries : List (String × String) :=
  [("NEW", "Pendiente de asignación"),
   ("NEEDS_INFO", "Esperando información adicional"),
   ("IN_PROGRESS", "En proceso de reparación"),
   ("DISPATCHED", "Técnico asignado"),
   ("RESOLVED", "Resuelta"),
   ("CLOSED", "Cerrada")]

/-- The member names and texts of the dictionary literal in
`_get_status_text` (lines 632-639). -/
def get_status_text_entries : List (String × String) :=
  [("NEW", "Nueva - Pendiente de asignación"),
   ("NEEDS_INFO", "Esperando información"),
   ("IN_PROGRESS", "En proceso"),
   ("DISPATCHED", "Asignada a proveedor"),
   ("RESOLVED", "Resuelta"),
   ("CLOSED", "Cerrada")]

/-- `dict.get(status, status.value)` on an evaluated status-text dictionary. -/
def statusDictGet (entries : List (TicketStatus × String)) (s : TicketStatus) : String :=
  match entries.find? (fun e => e.1 == s) with
  | some e => e.2
  | none => s.value

/-- `WhatsAppService._format_ticket_status` (lines 416-447): build the
status dictionary, then render the detail message for the ticket. -/
def format_ticket_status (t : Ticket) : Except String String := do
  let entries ← evalStatusDict format_ticket_status_entries
  let base :=
    "Incidencia " ++ t.ticket_code ++ "\n\nProblema: " ++ t.subject ++
      "\n\nEstado: " ++ statusDictGet entries t.status ++ "\n"
  let withLocation :=
    if pyTruthy t.address then
      base ++ "Ubicación: " ++ t.address.getD "" ++
        (if pyTruthy t.location_detail then
          " (" ++ t.location_detail.getD "" ++ ")" else "") ++ "\n"
    else base
  let withCreated := withLocation ++ "Reportada: " ++ toString t.created_at ++ "\n"
  let final :=
    if t.status == .NEEDS_INFO then
      withCreated ++ "\nNecesitamos más información para procesar esta incidencia."
    else withCreated
  pure final

/-- `WhatsAppService._get_status_text` (lines 630-640): build the status
dictionary, then `dict.get(status, status.value)`. -/
def get_status_text (status : TicketStatus) : Except String String := do
  let entries ← evalStatusDict get_status_text_entries
  pure (statusDictGet entries status)

/-! ## Concrete scenario data -/

/-- A closed water-leak ticket with code `INC-AB12CD`, closed at hour 10. -/
def closedTicket : Ticket :=
  { id := 1
    ticket_code := "INC-AB12CD"
    subject := "water leak"
    description := some "fuga en el techo"
    status := .CLOSED
    category := .WATER
    priority := .HIGH
    reporter_email := "ana@example.com"
    reporter_name := some "Ana"
    reporter_phone := none
    assigned_provider_id := none
    community_name := none
    channel := .EMAIL
    address := none
    location_detail := none
    created_at := 0
    updated_at := 10
    closed_at := some 10 }

/-- A reply subject citing the closed ticket code. -/
def subjectReClosed : String := "Re: [INC-AB12CD] water leak"

/-- The same ticket reopened by hand (not CLOSED). -/
def openTicket : Ticket :=
  { closedTicket with
    status := .DISPATCHED
    closed_at := none }

/-- The ticket created by the first processing of a webhook delivery, still
awaiting information. -/
def firstTicket : Ticket :=
  { closedTicket with
    id := 2
    ticket_code := "INC-Q1Q1Q1"
    subject := "Fuga de agua en el portal 3"
    status := .NEEDS_INFO
    closed_at := none
    updated_at := 0 }

/-- The stored inbound email of that first processing. -/
def firstEmail : EmailRec :=
  { ticket_id := 2
    message_id := "<m1@example.com>"
    direction := .INBOUND
    received_at := 0 }

/-- The same pending ticket reached over chat, with a reporter phone. -/
def staleTicket : Ticket :=
  { firstTicket with reporter_phone := some "+34600111222" }

/-- The active default provider for the WATER category. -/
def waterProvider : Provider :=
  { id := 7
    name := "Fontanería López"
    email := "lopez@example.com"
    category := .WATER
    is_default := true
    is_active := true }

/-- A freshly complete WATER ticket in status NEW. -/
def newWaterTicket : Ticket :=
  { firstTicket with
    id := 3
    ticket_code := "INC-W1W1W1"
    status := .NEW }

/-- The same ticket while still awaiting information. -/
def needsInfoTicket : Ticket :=
  { newWaterTicket with status := .NEEDS_INFO }

/-- A follow-up analysis that reports the information complete, extracting
nothing new and keeping category and priority. -/
def completeAnalysis : IncidentAnalysis :=
  { has_complete_info := true
    category := some .WATER
    priority := some .HIGH
    missing_fields := []
    extracted_info := {}
    follow_up_questions := []
    summary := "fuga de agua" }

/-- An empty extraction result. -/
def emptyExtracted : ExtractedInfo := {}

/-- A reporter whose stored name is the defaulted local part of the email. -/
def reporterAna : Reporter :=
  { name := "ana"
    email := "ana@example.com"
    phone := none
    community_name := none
    address := none
    floor_door := none }

/-- A ticket carrying a better reporter name for the same person. -/
def ticketAnaGarcia : Ticket :=
  { newWaterTicket with reporter_name := some "Ana García" }

/-- A reporter whose floor/door column holds a room name. -/
def reporterKitchen : Reporter :=
  { reporterAna with
    name := "Marta"
    email := "marta@example.com"
    floor_door := some "cocina" }

/-- A reporter with every enrichable field already populated. -/
def fullReporter : Reporter :=
  { name := "Marta"
    email := "marta@example.com"
    phone := some "600111222"
    community_name := some "Jardines del Sur"
    address := some "Calle Mayor 15"
    floor_door := some "3A" }

/-- A candidate stream that always proposes the same random part, and a
store holding one other code, for the generation witnesses. -/
def demoStream : Nat → String := fun _ => "AB12CD"

def demoStore : List String := ["INC-XXXXXX"]

/-! ## Helper lemmas -/

theorem notify_none (providers : List Provider) (t : Ticket) (send_ok : Bool)
    (h : default_providers_for providers t.category = []) :
    notify_default_provider providers t send_ok = (t, []) := by
  unfold notify_default_provider
  rw [h]

theorem notify_one_ok (providers : List Provider) (t : Ticket) (p : Provider)
    (h : default_providers_for providers t.category = [p]) :
    notify_default_provider providers t true =
      ({ t with assigned_provider_id := some p.id, status := .DISPATCHED },
       [provider_notified_event t p]) := by
  unfold notify_default_provider
  rw [h]
  rfl

theorem notify_one_fail (providers : List Provider) (t : Ticket) (p : Provider)
    (h : default_providers_for providers t.category = [p]) :
    notify_default_provider providers t false =
      ({ t with assigned_provider_id := some p.id },
       [provider_notification_failed_event t]) := by
  unfold notify_default_provider
  rw [h]
  rfl

theorem apply_info_updates_category (t : Ticket) (u : IncidentAnalysis) :
    (apply_info_response_updates t u).category = u.category.getD t.category := by
  unfold apply_info_response_updates
  cases hc : u.category <;> cases hp : u.priority <;>
    simp [apply_ite Ticket.category]

theorem apply_info_updates_status (t : Ticket) (u : IncidentAnalysis) :
    (apply_info_response_updates t u).status = t.status := by
  unfold apply_info_response_updates
  cases hc : u.category <;> cases hp : u.priority <;>
    simp [apply_ite Ticket.status]

theorem apply_resend_updates_status (t : Ticket) (u : IncidentAnalysis) (body : String) :
    (apply_resend_reply_updates t u body).status = t.status := by
  unfold apply_resend_reply_updates
  simp [apply_ite Ticket.status]

theorem notify_events_no_info (providers : List Provider) (t : Ticket) (send_ok : Bool) :
    ((notify_default_provider providers t send_ok).2).countP
      (fun ev => ev.event_type == "info_provided") = 0 := by
  unfold notify_default_provider
  split
  · rfl
  · split_ifs <;> rfl
  · rfl

theorem reference_candidate_not_closed (now : Nat) (tickets : List Ticket)
    (emails : List EmailRec) (ref : String) (t : Ticket)
    (h : reference_candidate now tickets emails ref = some t) :
    ¬ t.status = .CLOSED := by
  unfold reference_candidate at h
  split at h
  · cases h
  · split at h
    · cases h
    · split at h
      · cases h
      · split at h
        · cases h
        · split at h
          · cases h
          · split at h
            · cases h
            · intro hc
              cases h
              simp_all

theorem find_by_references_not_closed (now : Nat) (tickets : List Ticket)
    (emails : List EmailRec) (refs : List String) (t : Ticket)
    (h : find_by_references now tickets emails refs = some t) :
    ¬ t.status = .CLOSED := by
  unfold find_by_references at h
  obtain ⟨r, _, hr⟩ := List.exists_of_findSome?_eq_some h
  exact reference_candidate_not_closed now tickets emails r t hr

theorem find_by_in_reply_to_not_closed (now : Nat) (tickets : List Ticket)
    (emails : List EmailRec) (irt : Option String) (refs : List String) (t : Ticket)
    (h : find_by_in_reply_to now tickets emails irt refs = some t) :
    ¬ t.status = .CLOSED := by
  unfold find_by_in_reply_to at h
  split at h
  · exact find_by_references_not_closed _ _ _ _ _ h
  · split at h
    · exact find_by_references_not_closed _ _ _ _ _ h
    · split at h
      · exact find_by_references_not_closed _ _ _ _ _ h
      · split at h
        · cases h
        · split at h
          · cases h
          · intro hc
            cases h
            simp_all

theorem find_existing_ticket_not_closed (now : Nat) (tickets : List Ticket)
    (emails : List EmailRec) (subject : String) (irt : Option String)
    (refs : List String) (t : Ticket)
    (h : find_existing_ticket now tickets emails subject irt refs = some t) :
    ¬ t.status = .CLOSED := by
  unfold find_existing_ticket at h
  split at h
  · split at h
    · split at h
      · cases h
      · intro hc
        cases h
        simp_all
    · exact find_by_in_reply_to_not_closed _ _ _ _ _ _ h
  · exact find_by_in_reply_to_not_closed _ _ _ _ _ _ h

theorem valid_code_cons (rest : List Char) :
    validCodeChars ('I' :: 'N' :: 'C' :: '-' :: rest) =
      (rest.length == 6 && rest.all isCodeChar) := rfl

/-! ## Claims -/

/-- C1: the claim says every inbound email whose subject cites the code of
a CLOSED case yields a new case.  The email-service resolver does force a
new ticket (`none`), but the Resend webhook resolver looks the code up
without any status check and attaches the message to the closed ticket:
on the spec's own example subject it returns the CLOSED case. -/
theorem claim_C1_closed_code_divergence :
    closedTicket.status = .CLOSED ∧
    searchTicketCode subjectReClosed.toList = some "INC-AB12CD" ∧
    find_existing_ticket 20 [closedTicket] [] subjectReClosed none [] = none ∧
    resend_find_existing_ticket 20 [closedTicket] [] "ana@example.com"
      subjectReClosed none = some closedTicket := by
  refine ⟨rfl, by decide, by decide, by decide⟩

/-- C4: the claim says re-processing a `message_id` is a no-op.  The IMAP
path does skip an already stored id, but the Resend webhook never checks:
re-delivering the identical payload 49 hours later falls outside the
48-hour same-sender window, so the webhook creates a second case for the
same `message_id`; a re-delivery inside the window would instead re-attach
and re-run the whole pipeline on the existing ticket. -/
theorem claim_C4_webhook_no_dedup :
    process_emails_already_processed [firstEmail] "<m1@example.com>" = true ∧
    resend_process_incident_email 49 [firstTicket] [firstEmail] "ana@example.com"
      "Fuga de agua en el portal 3" none = .createNew ∧
    resend_process_incident_email 40 [firstTicket] [firstEmail] "ana@example.com"
      "Fuga de agua en el portal 3" none = .attach firstTicket := by
  refine ⟨rfl, by decide, by decide⟩

/-- C5: every generated case code matches `^INC-[A-Z0-9]{6}$`, and the
generation loop returns the first candidate distinct from every stored
code, so the result collides with no previously stored code; the loop
succeeds whenever a fresh candidate exists (its termination condition). -/
theorem claim_C5_code_generation (stream : Nat → String) (store : List String)
    (hfresh : ∃ n, store.contains (generate_ticket_code (stream n)) = false)
    (hlen : ∀ n, (stream n).length = 6)
    (halpha : ∀ n, (stream n).toList.all isCodeChar = true) :
    is_valid_ticket_code (create_ticket_code stream store hfresh) = true ∧
    create_ticket_code stream store hfresh ∉ store := by
  constructor
  · show is_valid_ticket_code (generate_ticket_code (stream (Nat.find hfresh))) = true
    unfold is_valid_ticket_code generate_ticket_code
    have hdata : ("INC-" ++ stream (Nat.find hfresh)).toList
        = 'I' :: 'N' :: 'C' :: '-' :: (stream (Nat.find hfresh)).toList := by
      show ("INC-" ++ stream (Nat.find hfresh)).data = _
      rw [String.data_append]
      rfl
    rw [hdata, valid_code_cons]
    have h6 : (stream (Nat.find hfresh)).toList.length = 6 := hlen _
    rw [h6, halpha (Nat.find hfresh)]
    rfl
  · have hspec := Nat.find_spec hfresh
    intro hmem
    unfold create_ticket_code at hmem
    have hcontains : store.contains (generate_ticket_code (stream (Nat.find hfresh))) = true :=
      List.elem_eq_true_of_mem hmem
    rw [hspec] at hcontains
    cases hcontains

/-- C5 witness: a concrete candidate stream and store. -/
theorem claim_C5_witness :
    is_valid_ticket_code (create_ticket_code demoStream demoStore ⟨0, by decide⟩) = true ∧
    create_ticket_code demoStream demoStore ⟨0, by decide⟩ ∉ demoStore :=
  claim_C5_code_generation demoStream demoStore ⟨0, by decide⟩
    (fun _ => rfl) (fun _ => rfl)

/-- C7: the claim says an open case older than the 24-hour freshness window
is not attached to.  The 24-hour constant exists, but the pending-ticket
lookup filters only on phone and NEEDS_INFO status: its result does not
depend on `updated_at` at all, and a ticket last updated 72 hours ago
(three times the threshold) is still returned for attachment. -/
theorem claim_C7_no_freshness_window :
    NEW_INCIDENT_TIME_THRESHOLD = 24 ∧
    NEW_INCIDENT_TIME_THRESHOLD < 72 - staleTicket.updated_at ∧
    (∀ u : Nat,
      find_ticket_needing_info [{ staleTicket with updated_at := u }] "+34600111222" =
        some { staleTicket with updated_at := u }) := by
  refine ⟨rfl, by decide, fun u => rfl⟩

/-- C10: the status-detail formatter and the status-text helper each build
their dictionary with an access to `TicketStatus.RESOLVED`, a member the
enum does not define, so on every input both raise `AttributeError`
instead of returning a message. -/
theorem claim_C10_resolved_attribute_error :
    (∀ t : Ticket, format_ticket_status t = Except.error "AttributeError: RESOLVED") ∧
    (∀ s : TicketStatus, get_status_text s = Except.error "AttributeError: RESOLVED") :=
  ⟨fun _ => rfl, fun _ => rfl⟩

/-- C2 counterexample: a NEEDS_INFO ticket whose follow-up analysis is
complete, with no default provider configured, changes status to NEW while
appending zero audit events: the claimed pairing of every status change
with exactly one event fails on the email info-response path. -/
theorem claim_C2_counterexample :
    needsInfoTicket.status = .NEEDS_INFO ∧
    completeAnalysis.has_complete_info = true ∧
    (process_info_response_email needsInfoTicket completeAnalysis [] true).1.status = .NEW ∧
    (process_info_response_email needsInfoTicket completeAnalysis [] true).2 = [] := by
  refine ⟨rfl, rfl, by decide, by decide⟩

/-- C2 (amended): creation, manual status change, and a successful provider
auto-notification each append exactly one audit event; the Resend path
records its NEEDS_INFO to NEW transition with exactly one `info_provided`
event; but the email-service info-response path changes NEEDS_INFO to NEW
with no event of its own, appending none at all when no default provider
exists. -/
theorem claim_C2_amended :
    (∀ (data : TicketCreateData) (code : String) (tid now : Nat),
      ((create_ticket data code tid now).2).length = 1) ∧
    (∀ (t : Ticket) (s : TicketStatus) (c : Option String) (now : Nat),
      ((change_status t s c now).2).length = 1) ∧
    (∀ (providers : List Provider) (t : Ticket) (p : Provider),
      default_providers_for providers t.category = [p] →
      (notify_default_provider providers t true).1.status = .DISPATCHED ∧
      ((notify_default_provider providers t true).2).length = 1) ∧
    (∀ (t : Ticket) (u : IncidentAnalysis) (providers : List Provider) (send_ok : Bool),
      u.has_complete_info = true →
      default_providers_for providers (u.category.getD t.category) = [] →
      (process_info_response_email t u providers send_ok).1.status = .NEW ∧
      (process_info_response_email t u providers send_ok).2 = []) ∧
    (∀ (t : Ticket) (u : IncidentAnalysis) (providers : List Provider)
        (send_ok : Bool) (body : String),
      t.status = .NEEDS_INFO → u.has_complete_info = true →
      ((resend_add_email_to_ticket t u providers send_ok body).2).countP
        (fun ev => ev.event_type == "info_provided") = 1) := by
  refine ⟨fun _ _ _ _ => rfl, fun _ _ _ _ => rfl, ?_, ?_, ?_⟩
  · intro providers t p h
    rw [notify_one_ok providers t p h]
    exact ⟨rfl, rfl⟩
  · intro t u providers send_ok hc hprov
    have hres : process_info_response_email t u providers send_ok =
        notify_default_provider providers
          { apply_info_response_updates t u with status := .NEW } send_ok := by
      unfold process_info_response_email
      rw [hc]
      rfl
    rw [hres]
    have hcat : ({ apply_info_response_updates t u with status := TicketStatus.NEW } :
        Ticket).category = u.category.getD t.category := apply_info_updates_category t u
    rw [notify_none providers _ send_ok (by rw [hcat]; exact hprov)]
    exact ⟨rfl, rfl⟩
  · intro t u providers send_ok body hst hc
    unfold resend_add_email_to_ticket
    dsimp only
    rw [apply_resend_updates_status t u body, hst, hc]
    simp [List.countP_cons, notify_events_no_info]

/-- C2 witness: concrete instances for the hypothesis-bearing conjuncts. -/
theorem claim_C2_witness :
    (notify_default_provider [waterProvider] newWaterTicket true).1.status = .DISPATCHED ∧
    (process_info_response_email needsInfoTicket completeAnalysis [] true).2 = [] ∧
    ((resend_add_email_to_ticket needsInfoTicket completeAnalysis [] true
      "portal 3").2).countP (fun ev => ev.event_type == "info_provided") = 1 :=
  ⟨(claim_C2_amended.2.2.1 [waterProvider] newWaterTicket waterProvider (by decide)).1,
   (claim_C2_amended.2.2.2.1 needsInfoTicket completeAnalysis [] true rfl (by decide)).2,
   claim_C2_amended.2.2.2.2 needsInfoTicket completeAnalysis [] true "portal 3" rfl rfl⟩

/-- C3 counterexample: the manual status-change operation moves a CLOSED
case back to NEW and erases its closed timestamp, contradicting both the
claimed terminality and the claimed immutability of closure data. -/
theorem claim_C3_counterexample :
    closedTicket.status = .CLOSED ∧
    closedTicket.closed_at = some 10 ∧
    (change_status closedTicket .NEW none 100).1.status = .NEW ∧
    (change_status closedTicket .NEW none 100).1.closed_at = none := by
  refine ⟨rfl, rfl, by decide, by decide⟩

/-- C3 (amended): the email-service resolver never hands new inbound mail
to a CLOSED case (it yields no match, so a new case is created), but CLOSED
is not terminal elsewhere: the manual status-change operation moves a
closed case to any non-closed status and clears its closed timestamp, and
the Resend webhook resolver can match a closed case by subject code and
then mutates it (appending the reply to its description). -/
theorem claim_C3_amended :
    (∀ (now : Nat) (tickets : List Ticket) (emails : List EmailRec)
        (subject : String) (irt : Option String) (refs : List String) (t : Ticket),
      find_existing_ticket now tickets emails subject irt refs = some t →
      ¬ t.status = .CLOSED) ∧
    (∀ (t : Ticket) (s : TicketStatus) (c : Option String) (now : Nat),
      ¬ s = .CLOSED →
      (change_status t s c now).1.status = s ∧
      (change_status t s c now).1.closed_at = none) ∧
    (resend_find_existing_ticket 20 [closedTicket] [] "ana@example.com"
        subjectReClosed none = some closedTicket ∧
      ¬ (resend_add_email_to_ticket closedTicket completeAnalysis [] true
          "sigue la fuga").1.description = closedTicket.description) := by
  refine ⟨find_existing_ticket_not_closed, ?_, by decide, by decide⟩
  intro t s c now hs
  unfold change_status
  rw [if_neg hs]
  exact ⟨rfl, rfl⟩

/-- C3 witness: concrete instances discharging the hypotheses. -/
theorem claim_C3_witness :
    ¬ openTicket.status = .CLOSED ∧
    (change_status closedTicket .NEW none 100).1.closed_at = none :=
  ⟨claim_C3_amended.1 20 [openTicket] [] subjectReClosed none [] openTicket (by decide),
   (claim_C3_amended.2.1 closedTicket .NEW none 100 (by decide)).2⟩

/-- C6 counterexample: with an active default WATER provider but a failing
outbound send, the operation assigns the provider yet leaves the status
unchanged: the claimed transition to DISPATCHED does not happen. -/
theorem claim_C6_counterexample :
    default_providers_for [waterProvider] newWaterTicket.category = [waterProvider] ∧
    (notify_default_provider [waterProvider] newWaterTicket false).1.assigned_provider_id =
      some waterProvider.id ∧
    newWaterTicket.status = .NEW ∧
    ¬ (notify_default_provider [waterProvider] newWaterTicket false).1.status =
      .DISPATCHED := by
  refine ⟨by decide, by decide, rfl, by decide⟩

/-- C6 (amended): with no active default provider the operation returns the
case unchanged with no event; with exactly one, it always assigns the
provider, and transitions the status to DISPATCHED with one audit event
only when the outbound send succeeds — a failing send leaves the status
unchanged and appends a failure event instead. -/
theorem claim_C6_amended :
    (∀ (providers : List Provider) (t : Ticket) (send_ok : Bool),
      default_providers_for providers t.category = [] →
      notify_default_provider providers t send_ok = (t, [])) ∧
    (∀ (providers : List Provider) (t : Ticket) (p : Provider),
      default_providers_for providers t.category = [p] →
      notify_default_provider providers t true =
        ({ t with assigned_provider_id := some p.id, status := .DISPATCHED },
         [provider_notified_event t p]) ∧
      notify_default_provider providers t false =
        ({ t with assigned_provider_id := some p.id },
         [provider_notification_failed_event t])) :=
  ⟨notify_none,
   fun providers t p h => ⟨notify_one_ok providers t p h, notify_one_fail providers t p h⟩⟩

/-- C6 witness: the skip case and the success case at concrete inputs. -/
theorem claim_C6_witness :
    notify_default_provider [] newWaterTicket true = (newWaterTicket, []) ∧
    notify_default_provider [waterProvider] newWaterTicket true =
      ({ newWaterTicket with
          assigned_provider_id := some waterProvider.id
          status := .DISPATCHED },
       [provider_notified_event newWaterTicket waterProvider]) :=
  ⟨claim_C6_amended.1 [] newWaterTicket true rfl,
   (claim_C6_amended.2 [waterProvider] newWaterTicket waterProvider (by decide)).1⟩

/-- C8: a fallback analysis on a body whose lower-cased text contains none
of the address keywords (`dirección`, `calle`) nor the location keywords
(`portal`, `piso`, `planta`) always reports incomplete information and
lists the address field among the missing ones. -/
theorem claim_C8_fallback_missing_address (classified : Category × Priority)
    (subject body sender_email : String) (sender_name : Option String)
    (h1 : strHas (pyLower body) "dirección" = false)
    (h2 : strHas (pyLower body) "calle" = false)
    (h3 : strHas (pyLower body) "portal" = false)
    (h4 : strHas (pyLower body) "piso" = false)
    (h5 : strHas (pyLower body) "planta" = false) :
    (fallback_analysis classified subject body sender_email
      sender_name).has_complete_info = false ∧
    "Dirección del edificio" ∈
      (fallback_analysis classified subject body sender_email
        sender_name).missing_fields := by
  unfold fallback_analysis
  cases hname : pyTruthy sender_name <;>
    simp [h1, h2, h3, h4, h5, hname]

/-- C8 witness: a greeting body with no address data and no sender name. -/
theorem claim_C8_witness :
    (fallback_analysis (Category.OTHER, Priority.MEDIUM) "asunto" "hola que tal"
      "ana@example.com" none).has_complete_info = false ∧
    "Dirección del edificio" ∈
      (fallback_analysis (Category.OTHER, Priority.MEDIUM) "asunto" "hola que tal"
        "ana@example.com" none).missing_fields :=
  claim_C8_fallback_missing_address (Category.OTHER, Priority.MEDIUM) "asunto"
    "hola que tal" "ana@example.com" none
    (by decide) (by decide) (by decide) (by decide) (by decide)

/-- C9 counterexample: enrichment is not a pure write-if-empty fill.  The
email path overwrites the non-empty stored name `ana` (equal to the email
local part) with the ticket name, and the chat path erases a non-empty
stored floor/door value that is a room name. -/
theorem claim_C9_counterexample :
    ¬ reporterAna.name = "" ∧
    reporterAna.name = emailLocalPart reporterAna.email ∧
    update_reporter_from_ticket (some reporterAna) ticketAnaGarcia emptyExtracted =
      some { reporterAna with name := "Ana García" } ∧
    reporterKitchen.floor_door = some "cocina" ∧
    (whatsapp_enrich_reporter reporterKitchen emptyExtracted).floor_door = none := by
  refine ⟨by decide, by decide, by decide, rfl, by decide⟩

/-- C9 (amended): enrichment is one-directional except for two cases the
code carves out.  Email path: phone, community, address and floor/door are
written only into empty fields and never overwritten; the name is
preserved when non-empty, unless it still equals the defaulted email local
part, in which case it is replaced.  Chat path: a non-empty address is
never overwritten, a non-empty floor/door survives unless it is a room
name (then it is cleared), and the name is preserved unless it is a
`WhatsApp` placeholder. -/
theorem claim_C9_amended :
    (∀ (r : Reporter) (t : Ticket) (e : ExtractedInfo) (r' : Reporter),
      update_reporter_from_ticket (some r) t e = some r' →
      r'.email = r.email ∧
      (pyTruthy r.phone = true → r'.phone = r.phone) ∧
      (pyTruthy r.community_name = true → r'.community_name = r.community_name) ∧
      (pyTruthy r.address = true → r'.address = r.address) ∧
      (pyTruthy r.floor_door = true → r'.floor_door = r.floor_door) ∧
      (¬ r.name = "" → ¬ r.name = emailLocalPart r.email → r'.name = r.name)) ∧
    (∀ (r : Reporter) (e : ExtractedInfo),
      (pyTruthy r.address = true →
        (whatsapp_enrich_reporter r e).address = r.address) ∧
      (pyTruthy r.floor_door = true →
        is_room_name_value (r.floor_door.getD "") = false →
        (whatsapp_enrich_reporter r e).floor_door = r.floor_door) ∧
      (strStarts r.name "WhatsApp" = false →
        (whatsapp_enrich_reporter r e).name = r.name)) := by
  constructor
  · intro r t e r' h
    unfold update_reporter_from_ticket at h
    injection h with h
    subst h
    refine ⟨rfl, ?_, ?_, ?_, ?_, ?_⟩
    · intro hp
      simp [hp]
    · intro hp
      simp [hp]
    · intro hp
      simp [hp]
    · intro hp
      simp [hp]
    · intro h1 h2
      simp [h1, h2]
  · intro r e
    refine ⟨?_, ?_, ?_⟩
    · intro hp
      unfold whatsapp_enrich_reporter
      simp [hp]
    · intro hp hroom
      unfold whatsapp_enrich_reporter
      simp [hp, hroom]
    · intro hname
      unfold whatsapp_enrich_reporter
      simp [hname]

/-- C9 witness: a fully populated reporter is left unchanged by both
enrichment paths. -/
theorem claim_C9_witness :
    (whatsapp_enrich_reporter fullReporter emptyExtracted).floor_door =
      fullReporter.floor_door ∧
    fullReporter.phone = fullReporter.phone :=
  ⟨(claim_C9_amended.2 fullReporter emptyExtracted).2.1 (by decide) (by decide),
   (claim_C9_amended.1 fullReporter ticketAnaGarcia emptyExtracted fullReporter
      (by decide)).2.1 (by decide)⟩

end Fincas
